import Mathlib

/-!
Verification of the Telegram contact-form submission handlers.

The repository contains three near-duplicate serverless handlers that
receive a contact-form submission over HTTP, validate it, format it as a
Telegram message and forward it to the Telegram bot API:

* `netlifyHandler`  embeds `src/netlify/functions/telegram.js`
  (Netlify event handler, topic-aware, gated error details);
* `apiHandler`      embeds `src/api/telegram.js`
  (Vercel-style, CORS-aware, numeric CHAT_ID coercion, ungated details);
* `plainHandler`    embeds `src/telegram.js`
  (Vercel-style, plain, gated error details).

External capabilities of the JavaScript runtime and platform are passed as
explicit parameters: `parse` models `JSON.parse` (`Except.error` carries the
thrown message), `jsNumber` models `Number(string)` (`none` models `NaN`),
`dt` models the formatted clock value `new Date().toLocaleString(..)`, and
`apiResult` models the outcome of the single outbound `fetch` to the bot API
(`Except.error` models a thrown network/parse error, `Except.ok` the parsed
JSON response).  Each handler returns, besides the HTTP response, the
outbound request it issued (if any) and (for the Netlify variant) the
console log entries, so that claims about "the downstream API is never
called" and "a warning is logged" can be stated.
-/

/-- A JavaScript value as it can appear in a parsed form field: `undefined`,
`null`, or a string.  The repository's data model (contact-form fields) is
text; this is the domain over which the handlers' truthiness checks run. -/
inductive JsValue where
  | undef
  | jnull
  | jstr (s : String)
deriving DecidableEq, Repr

/-- JavaScript truthiness on a form-field value: `undefined`, `null` and the
empty string are falsy, every other string is truthy. -/
def jsTruthy : JsValue → Bool
  | .jstr s => s != ""
  | _ => false

/-- JavaScript `String(v)` coercion on a form-field value. -/
def jsValueStr : JsValue → String
  | .jstr s => s
  | .jnull => "null"
  | .undef => "undefined"

/-- JavaScript whitespace (the ASCII part of `\s`, plus NBSP), as matched by
the email regex and by `String.prototype.trim`. -/
def jsSpaceChar (c : Char) : Bool :=
  c == ' ' || c == '\t' || c == '\n' || c == '\r' || c == '\x0b' || c == '\x0c' || c == '\xa0'

/-- JavaScript `s.trim()`: drop leading and trailing whitespace. -/
def jsTrim (s : String) : String :=
  ⟨((s.data.dropWhile jsSpaceChar).reverse.dropWhile jsSpaceChar).reverse⟩

/-- `list.replace(/c/g, r)`: replace every occurrence of the character `c`
by the string `r`, in one left-to-right pass (the JS `String.replace` with a
global single-character pattern). -/
def replaceAllChar (c : Char) (r : List Char) : List Char → List Char
  | [] => []
  | x :: xs => if x = c then r ++ replaceAllChar c r xs else x :: replaceAllChar c r xs

/-- The five sequential replacements of `escapeHtml`, in source order:
`&` is replaced first (innermost), then `<`, `>`, `"`, and the
apostrophe. -/
def replace5 (l : List Char) : List Char :=
  replaceAllChar '\x27' "&#039;".data
    (replaceAllChar '"' "&quot;".data
      (replaceAllChar '>' "&gt;".data
        (replaceAllChar '<' "&lt;".data
          (replaceAllChar '&' "&amp;".data l))))

/-- `escapeHtml` from the source (identical in all three files):
falsy input gives the empty string, otherwise the five HTML-special
characters are replaced by their entities in the order of `replace5`. -/
def escapeHtml (text : String) : String :=
  if text = "" then "" else ⟨replace5 text.data⟩

/-- `escapeHtml` applied to a raw form-field value: `undefined` and `null`
are falsy, so the source returns the empty string for them. -/
def escapeHtmlJs : JsValue → String
  | .jstr s => escapeHtml s
  | _ => ""

/-- Template text of `formatTelegramMessage`: the title block. -/
def fmtTitle : String := "🎯 <b>Новая заявка с сайта Кассиопея AI</b>\n\n"

/-- Template text: the name label. -/
def fmtNameLabel : String := "👤 <b>Имя:</b> "

/-- Template text: the email label. -/
def fmtEmailLabel : String := "📧 <b>Email:</b> "

/-- Template text: the company label. -/
def fmtCompanyLabel : String := "🏢 <b>Компания:</b> "

/-- Template text: the message label. -/
def fmtMessageLabel : String := "\n💬 <b>Сообщение:</b>\n"

/-- Template text: the timestamp label. -/
def fmtSentLabel : String := "📅 <b>Отправлено:</b> "

/-- The optional company line of `formatTelegramMessage`: included only when
`company && company.trim()` is truthy in the source. -/
def companyLine (company : JsValue) : String :=
  match company with
  | .jstr s => if s != "" && jsTrim s != "" then fmtCompanyLabel ++ escapeHtml s ++ "\n" else ""
  | _ => ""

/-- `formatTelegramMessage(name, email, company, message)` from the source
(identical in all three files).  The timestamp string `dt` stands for the
`toLocaleString` rendering of the clock read inside the source function. -/
def formatTelegramMessage (name email company message : JsValue) (dt : String) : String :=
  fmtTitle ++ fmtNameLabel ++ escapeHtmlJs name ++ "\n"
    ++ fmtEmailLabel ++ escapeHtmlJs email ++ "\n"
    ++ companyLine company
    ++ fmtMessageLabel ++ escapeHtmlJs message ++ "\n\n"
    ++ fmtSentLabel ++ dt

/-- Split a character list at every occurrence of `c` (the behaviour of
`String.split` on a one-character separator, used to embed the email
regex test). -/
def splitChar (c : Char) : List Char → List (List Char)
  | [] => [[]]
  | x :: xs =>
    if x = c then [] :: splitChar c xs
    else
      match splitChar c xs with
      | [] => [[x]]
      | h :: t => (x :: h) :: t

/-- A character allowed by `[^\s@]` in the email regex. -/
def okChar (c : Char) : Bool := !(jsSpaceChar c) && c != '@'

/-- `emailRegex.test(s)` for `^[^\s@]+@[^\s@]+\.[^\s@]+$`: exactly one `@`,
a nonempty run of non-space non-`@` characters before it, and after it a
nonempty run containing a `.` with at least one character on each side. -/
def emailTest (s : String) : Bool :=
  match splitChar '@' s.data with
  | [a, b] => !(a.isEmpty) && a.all okChar && b.all okChar && ((b.drop 1).dropLast.contains '.')
  | _ => false

/-- The environment variables read by the handlers (`process.env`). -/
structure Env where
  TELEGRAM_BOT_TOKEN : Option String
  TELEGRAM_CHAT_ID : Option String
  TELEGRAM_TOPIC_ID : Option String
  NODE_ENV : Option String
deriving DecidableEq, Repr

/-- Truthiness of an environment variable: unset or empty is falsy. -/
def envSet (v : Option String) : Bool :=
  match v with
  | some s => s != ""
  | none => false

/-- `process.env.NODE_ENV === 'development'`. -/
def isDev (env : Env) : Bool := env.NODE_ENV == some "development"

/-- The `result` object of a Telegram API response. -/
structure TgResult where
  message_id : Int
deriving DecidableEq, Repr

/-- The parsed JSON response of the Telegram bot API.  `result` is optional:
the code accesses `result.message_id` without a guard. -/
structure TgResponse where
  ok : Bool
  result : Option TgResult
  error_code : Option Int
  description : Option String
deriving DecidableEq, Repr

/-- The `chat_id` sent outbound: the Netlify and plain variants pass the raw
environment string, the CORS-aware variant passes the coerced number. -/
inductive ChatRef where
  | cstr (s : String)
  | cnum (n : Int)
deriving DecidableEq, Repr

/-- The outbound `sendMessage` request the handler issues: the bot token in
the URL and the JSON payload fields.  `message_thread_id` is `none` exactly
when the payload carries no such field. -/
structure OutRequest where
  botToken : String
  chat_id : ChatRef
  text : String
  parse_mode : String
  disable_web_page_preview : Bool
  message_thread_id : Option Int
deriving DecidableEq, Repr

/-- A JSON response body produced by a handler.  A field whose value is
`none` is absent from the serialized body (JSON.stringify drops
`undefined`). -/
structure RespBody where
  success : Bool
  message : Option String := none
  error : Option String := none
  messageId : Option Int := none
  details : Option String := none
  errorCode : Option String := none
deriving DecidableEq, Repr

/-- A Netlify lambda response: status code and JSON body. -/
structure LambdaResponse where
  statusCode : Nat
  body : RespBody
deriving DecidableEq, Repr

/-- The four fields destructured from the parsed request body. -/
structure FormBody where
  name : JsValue
  email : JsValue
  company : JsValue
  message : JsValue
deriving DecidableEq, Repr

/-- The result of `JSON.parse` as far as the handlers inspect it: `null`
(also standing for `undefined`, which destructures the same way, by
throwing), an object carrying the four form fields, or any other value
(number, string, boolean, array), whose destructuring yields `undefined`
for every field. -/
inductive ParsedJson where
  | jnull
  | jobj (fields : FormBody)
  | jprim
deriving DecidableEq, Repr

/-- Destructuring `{ name, email, company, message }` from a non-null parsed
value: an object yields its fields, any other value yields `undefined` for
every field. -/
def fieldsOf : ParsedJson → FormBody
  | .jobj f => f
  | _ => ⟨.undef, .undef, .undef, .undef⟩

/-- A Netlify invocation event: HTTP method and the raw body string. -/
structure NetlifyEvent where
  httpMethod : String
  body : String
deriving DecidableEq, Repr

/-- Outcome of one Netlify handler invocation: the HTTP response, the
outbound bot-API request (if one was issued), and the console log entries
(level, message). -/
structure NetlifyOutcome where
  response : LambdaResponse
  outbound : Option OutRequest
  logs : List (String × String)
deriving DecidableEq, Repr

/-- Response message: 405 body text (shared stem of all variants). -/
def msgMethodStem : String := "Method not allowed"

/-- Full 405 error message of the Netlify and plain variants. -/
def msgMethodNotAllowed : String := msgMethodStem ++ ". Use POST."

/-- 400 error message for missing required fields. -/
def msgMissingFields : String := "Missing required fields: name, email, message"

/-- 400 error message for an email failing the regex. -/
def msgInvalidEmail : String := "Invalid email format"

/-- 500 error message when BOT_TOKEN or CHAT_ID is missing (Netlify text). -/
def msgNotConfigured : String := "Telegram bot not configured"

/-- Suffix the CORS-aware and plain variants add to the not-configured
message. -/
def msgConfigSuffix : String :=
  ". Please set TELEGRAM_BOT_TOKEN and TELEGRAM_CHAT_ID environment variables."

/-- 500 error message of the CORS-aware variant when CHAT_ID is not
numeric. -/
def msgInvalidChatId : String := "Invalid CHAT_ID format. Must be a number."

/-- 400 error message of the CORS-aware variant for malformed JSON. -/
def msgInvalidJson : String := "Invalid JSON in request body"

/-- Generic 500 error message of the catch-all handler. -/
def msgGenericFailure : String := "Failed to send Telegram notification"

/-- 200 success message. -/
def msgSentOk : String := "Telegram notification sent successfully"

/-- Text of the error thrown when the downstream response has `ok:false`. -/
def msgTgApiError : String := "Telegram API error: "

/-- Fallback for a missing downstream `description`. -/
def msgUnknownError : String := "Unknown error"

/-- Fallback for a missing downstream `error_code` in the CORS-aware
variant. -/
def msgUnknownLower : String := "unknown"

/-- Console text logged when configuration is missing. -/
def logConfigMissing : String := "Telegram configuration missing"

/-- Console warning logged when TOPIC_ID fails numeric coercion. -/
def logTopicWarn : String := "Invalid TOPIC_ID format, will send to general chat"

/-- Console text logged by the catch-all error handler. -/
def logSendError : String := "Error sending Telegram notification:"

/-- Message of the TypeError thrown by the unguarded
`telegramResponse.result.message_id` access when `result` is absent. -/
def msgReadUndef : String := "Cannot read properties of undefined (reading \x27message_id\x27)"

/-- Message of the TypeError thrown when destructuring a null body. -/
def msgDestructureNull : String := "Cannot destructure property \x27name\x27 of \x27body\x27 as it is null."

/-- JavaScript `o || d` on an optional string (a missing or empty string
falls back to the default). -/
def jsOrStr (o : Option String) (d : String) : String :=
  match o with
  | some s => if s == "" then d else s
  | none => d

/-- JavaScript `o || d` on an optional number, rendered into a template
string (zero is falsy). -/
def jsOrNumStr (o : Option Int) (d : String) : String :=
  match o with
  | some n => if n == 0 then d else toString n
  | none => d

/-- The 500 response of the Netlify catch block: generic error text, with
`details` carrying the thrown message only when `NODE_ENV` is
`development`; the given console entries precede the catch block's
`console.error`. -/
def netlifyFail (env : Env) (errMsg : String) (outbound : Option OutRequest)
    (logs : List (String × String)) : NetlifyOutcome :=
  { response := { statusCode := 500,
                  body := { success := false, error := some msgGenericFailure,
                            details := if isDev env then some errMsg else none } },
    outbound := outbound,
    logs := logs ++ [("error", logSendError ++ " " ++ errMsg)] }

/-- The topic id the Netlify variant resolves: `Number(TOPIC_ID)` when the
variable is truthy, treated as absent when coercion yields `NaN`
(`jsNumber` returning `none`). -/
def netlifyTopicId (env : Env) (jsNumber : String → Option Int) : Option Int :=
  if envSet env.TELEGRAM_TOPIC_ID then jsNumber ((env.TELEGRAM_TOPIC_ID).getD "") else none

/-- The outbound request built by the Netlify variant's
`sendTelegramMessage`: the raw CHAT_ID string, the formatted text, HTML
parse mode, link-preview suppression, and the thread id only when one was
resolved. -/
def netlifyOutReq (env : Env) (jsNumber : String → Option Int) (dt : String)
    (f : FormBody) : OutRequest :=
  { botToken := (env.TELEGRAM_BOT_TOKEN).getD "",
    chat_id := .cstr ((env.TELEGRAM_CHAT_ID).getD ""),
    text := formatTelegramMessage f.name f.email f.company f.message dt,
    parse_mode := "HTML",
    disable_web_page_preview := true,
    message_thread_id := netlifyTopicId env jsNumber }

/-- The tail of the Netlify handler's try block, after all validation
passed: send the message and map the downstream result onto the HTTP
response.  `warnLogs` are the console entries accumulated so far. -/
def netlifySendPhase (env : Env) (jsNumber : String → Option Int) (dt : String)
    (f : FormBody) (apiResult : Except String TgResponse)
    (warnLogs : List (String × String)) : NetlifyOutcome :=
  match apiResult with
  | .error m => netlifyFail env m (some (netlifyOutReq env jsNumber dt f)) warnLogs
  | .ok resp =>
    if resp.ok then
      match resp.result with
      | some r =>
        { response := { statusCode := 200,
                        body := { success := true, message := some msgSentOk,
                                  messageId := some r.message_id } },
          outbound := some (netlifyOutReq env jsNumber dt f),
          logs := warnLogs }
      | none => netlifyFail env msgReadUndef (some (netlifyOutReq env jsNumber dt f)) warnLogs
    else
      netlifyFail env (msgTgApiError ++ jsOrStr resp.description msgUnknownError)
        (some (netlifyOutReq env jsNumber dt f)) warnLogs

/-- The handler of `src/netlify/functions/telegram.js`.  `parse` models
`JSON.parse` (an `Except.error` is the thrown parse error, caught by the
surrounding try), `jsNumber` models `Number(string)` with `none` for `NaN`,
`dt` the formatted clock, `apiResult` the outcome of the single outbound
fetch. -/
def netlifyHandler (env : Env) (parse : String → Except String ParsedJson)
    (jsNumber : String → Option Int) (dt : String)
    (apiResult : Except String TgResponse) (event : NetlifyEvent) : NetlifyOutcome :=
  if event.httpMethod != "POST" then
    { response := { statusCode := 405,
                    body := { success := false, error := some msgMethodNotAllowed } },
      outbound := none, logs := [] }
  else
    match parse event.body with
    | .error m => netlifyFail env m none []
    | .ok .jnull => netlifyFail env msgDestructureNull none []
    | .ok p =>
      if !(jsTruthy (fieldsOf p).name) || !(jsTruthy (fieldsOf p).email)
          || !(jsTruthy (fieldsOf p).message) then
        { response := { statusCode := 400,
                        body := { success := false, error := some msgMissingFields } },
          outbound := none, logs := [] }
      else if !(emailTest (jsValueStr (fieldsOf p).email)) then
        { response := { statusCode := 400,
                        body := { success := false, error := some msgInvalidEmail } },
          outbound := none, logs := [] }
      else if !(envSet env.TELEGRAM_BOT_TOKEN) || !(envSet env.TELEGRAM_CHAT_ID) then
        { response := { statusCode := 500,
                        body := { success := false, error := some msgNotConfigured } },
          outbound := none, logs := [("error", logConfigMissing)] }
      else
        netlifySendPhase env jsNumber dt (fieldsOf p) apiResult
          (if envSet env.TELEGRAM_TOPIC_ID
              && ((jsNumber ((env.TELEGRAM_TOPIC_ID).getD "")).isNone)
           then [("warn", logTopicWarn)] else [])

/-- The request body as the CORS-aware variant receives it: Vercel may hand
the handler a raw string or an already parsed value. -/
inductive JsBody where
  | bstr (s : String)
  | bval (p : ParsedJson)
deriving DecidableEq, Repr

/-- A request to the CORS-aware (Vercel-style) handler. -/
structure ApiRequest where
  method : String
  body : JsBody
deriving DecidableEq, Repr

/-- A response of a Vercel-style handler: status, the headers set on the
response object, and the JSON body (none for a bare `end()`). -/
structure ApiResponse where
  status : Nat
  headers : List (String × String)
  body : Option RespBody
deriving DecidableEq, Repr

/-- Outcome of one Vercel-style handler invocation. -/
structure ApiOutcome where
  response : ApiResponse
  outbound : Option OutRequest
deriving DecidableEq, Repr

/-- The permissive CORS headers the CORS-aware variant sets on every
response before the method gate. -/
def corsHeaders : List (String × String) :=
  [("Access-Control-Allow-Origin", "*"),
   ("Access-Control-Allow-Methods", "POST, OPTIONS"),
   ("Access-Control-Allow-Headers", "Content-Type, Authorization"),
   ("Access-Control-Max-Age", "86400")]

/-- The 500 response of the CORS-aware variant's catch block: unlike the
other two variants, `details` always carries `error.message || 'Unknown
error'`, with no development-mode gate.  `error.code` is undefined for
these errors, so `errorCode` is absent. -/
def apiFail (m : String) (outbound : Option OutRequest) : ApiOutcome :=
  { response := { status := 500, headers := corsHeaders,
                  body := some { success := false, error := some msgGenericFailure,
                                 details := some (jsOrStr (some m) msgUnknownError) } },
    outbound := outbound }

/-- The outbound request built by the CORS-aware variant's
`sendTelegramMessage`: numeric chat id, no topic support. -/
def apiOutReq (tok : String) (chatNum : Int) (dt : String) (f : FormBody) : OutRequest :=
  { botToken := tok,
    chat_id := .cnum chatNum,
    text := formatTelegramMessage f.name f.email f.company f.message dt,
    parse_mode := "HTML",
    disable_web_page_preview := true,
    message_thread_id := none }

/-- The body of the CORS-aware handler's try block after the JSON body has
been obtained (`body || {}` destructured by `fieldsOf`). -/
def apiCont (env : Env) (jsNumber : String → Option Int) (dt : String)
    (apiResult : Except String TgResponse) (p : ParsedJson) : ApiOutcome :=
  if !(jsTruthy (fieldsOf p).name) || !(jsTruthy (fieldsOf p).email)
      || !(jsTruthy (fieldsOf p).message) then
    { response := { status := 400, headers := corsHeaders,
                    body := some { success := false, error := some msgMissingFields } },
      outbound := none }
  else if !(emailTest (jsValueStr (fieldsOf p).email)) then
    { response := { status := 400, headers := corsHeaders,
                    body := some { success := false, error := some msgInvalidEmail } },
      outbound := none }
  else if !(envSet env.TELEGRAM_BOT_TOKEN) || !(envSet env.TELEGRAM_CHAT_ID) then
    { response := { status := 500, headers := corsHeaders,
                    body := some { success := false,
                                   error := some (msgNotConfigured ++ msgConfigSuffix) } },
      outbound := none }
  else
    match jsNumber ((env.TELEGRAM_CHAT_ID).getD "") with
    | none =>
      { response := { status := 500, headers := corsHeaders,
                      body := some { success := false, error := some msgInvalidChatId } },
        outbound := none }
    | some chatNum =>
      match apiResult with
      | .error m => apiFail m (some (apiOutReq ((env.TELEGRAM_BOT_TOKEN).getD "") chatNum dt (fieldsOf p)))
      | .ok resp =>
        if resp.ok then
          match resp.result with
          | some r =>
            { response := { status := 200, headers := corsHeaders,
                            body := some { success := true, message := some msgSentOk,
                                           messageId := some r.message_id } },
              outbound := some (apiOutReq ((env.TELEGRAM_BOT_TOKEN).getD "") chatNum dt (fieldsOf p)) }
          | none => apiFail msgReadUndef (some (apiOutReq ((env.TELEGRAM_BOT_TOKEN).getD "") chatNum dt (fieldsOf p)))
        else
          apiFail (msgTgApiError ++ jsOrNumStr resp.error_code msgUnknownLower
              ++ " - " ++ jsOrStr resp.description msgUnknownError)
            (some (apiOutReq ((env.TELEGRAM_BOT_TOKEN).getD "") chatNum dt (fieldsOf p)))

/-- The handler of `src/api/telegram.js` (CORS-aware Vercel variant):
permissive CORS headers on every response, OPTIONS preflight answered with
a bare 200, a 405 naming the received method, an explicit 400 for a string
body failing `JSON.parse`, numeric CHAT_ID coercion, ungated error
details. -/
def apiHandler (env : Env) (parse : String → Except String ParsedJson)
    (jsNumber : String → Option Int) (dt : String)
    (apiResult : Except String TgResponse) (req : ApiRequest) : ApiOutcome :=
  if req.method == "OPTIONS" then
    { response := { status := 200, headers := corsHeaders, body := none }, outbound := none }
  else if req.method != "POST" then
    { response := { status := 405, headers := corsHeaders,
                    body := some { success := false,
                                   error := some (msgMethodNotAllowed ++ " Received: " ++ req.method) } },
      outbound := none }
  else
    match req.body with
    | .bstr s =>
      match parse s with
      | .error _ =>
        { response := { status := 400, headers := corsHeaders,
                        body := some { success := false, error := some msgInvalidJson } },
          outbound := none }
      | .ok p => apiCont env jsNumber dt apiResult p
    | .bval p => apiCont env jsNumber dt apiResult p

/-- A request to the plain (non-CORS) Vercel-style handler: `req.body` is
already parsed by the platform. -/
structure PlainRequest where
  method : String
  body : ParsedJson
deriving DecidableEq, Repr

/-- The 500 response of the plain variant's catch block: generic error
text, `details` gated on development mode. -/
def plainFail (env : Env) (m : String) (outbound : Option OutRequest) : ApiOutcome :=
  { response := { status := 500, headers := [],
                  body := some { success := false, error := some msgGenericFailure,
                                 details := if isDev env then some m else none } },
    outbound := outbound }

/-- The outbound request built by the plain variant's
`sendTelegramMessage`: raw CHAT_ID string, no topic support. -/
def plainOutReq (tok chat : String) (dt : String) (f : FormBody) : OutRequest :=
  { botToken := tok,
    chat_id := .cstr chat,
    text := formatTelegramMessage f.name f.email f.company f.message dt,
    parse_mode := "HTML",
    disable_web_page_preview := true,
    message_thread_id := none }

/-- The tail of the plain handler's try block after validation passed. -/
def plainSendPhase (env : Env) (dt : String) (f : FormBody)
    (apiResult : Except String TgResponse) : ApiOutcome :=
  match apiResult with
  | .error m =>
    plainFail env m (some (plainOutReq ((env.TELEGRAM_BOT_TOKEN).getD "")
      ((env.TELEGRAM_CHAT_ID).getD "") dt f))
  | .ok resp =>
    if resp.ok then
      match resp.result with
      | some r =>
        { response := { status := 200, headers := [],
                        body := some { success := true, message := some msgSentOk,
                                       messageId := some r.message_id } },
          outbound := some (plainOutReq ((env.TELEGRAM_BOT_TOKEN).getD "")
            ((env.TELEGRAM_CHAT_ID).getD "") dt f) }
      | none =>
        plainFail env msgReadUndef (some (plainOutReq ((env.TELEGRAM_BOT_TOKEN).getD "")
          ((env.TELEGRAM_CHAT_ID).getD "") dt f))
    else
      plainFail env (msgTgApiError ++ jsOrStr resp.description msgUnknownError)
        (some (plainOutReq ((env.TELEGRAM_BOT_TOKEN).getD "")
          ((env.TELEGRAM_CHAT_ID).getD "") dt f))

/-- The handler of `src/telegram.js` (plain Vercel variant): no CORS
handling, `req.body` already parsed, gated error details. -/
def plainHandler (env : Env) (dt : String)
    (apiResult : Except String TgResponse) (req : PlainRequest) : ApiOutcome :=
  if req.method != "POST" then
    { response := { status := 405, headers := [],
                    body := some { success := false, error := some msgMethodNotAllowed } },
      outbound := none }
  else
    match req.body with
    | .jnull => plainFail env msgDestructureNull none
    | p =>
      if !(jsTruthy (fieldsOf p).name) || !(jsTruthy (fieldsOf p).email)
          || !(jsTruthy (fieldsOf p).message) then
        { response := { status := 400, headers := [],
                        body := some { success := false, error := some msgMissingFields } },
          outbound := none }
      else if !(emailTest (jsValueStr (fieldsOf p).email)) then
        { response := { status := 400, headers := [],
                        body := some { success := false, error := some msgInvalidEmail } },
          outbound := none }
      else if !(envSet env.TELEGRAM_BOT_TOKEN) || !(envSet env.TELEGRAM_CHAT_ID) then
        { response := { status := 500, headers := [],
                        body := some { success := false,
                                       error := some (msgNotConfigured ++ msgConfigSuffix) } },
          outbound := none }
      else
        plainSendPhase env dt (fieldsOf p) apiResult

/-- The per-character escape map that the five sequential replacements of
`escapeHtml` implement: each HTML-special character becomes its entity,
every other character is kept. -/
def escapeCharL (c : Char) : List Char :=
  if c = '&' then "&amp;".data
  else if c = '<' then "&lt;".data
  else if c = '>' then "&gt;".data
  else if c = '"' then "&quot;".data
  else if c = '\x27' then "&#039;".data
  else [c]

/-- Single-pass character-by-character escaping: every character of the
input is replaced by its entity independently of its neighbours. -/
def escapeAll : List Char → List Char
  | [] => []
  | c :: cs => escapeCharL c ++ escapeAll cs

theorem replaceAllChar_append (c : Char) (r a b : List Char) :
    replaceAllChar c r (a ++ b) = replaceAllChar c r a ++ replaceAllChar c r b := by
  induction a with
  | nil => simp [replaceAllChar]
  | cons x xs ih =>
    by_cases h : x = c <;> simp [replaceAllChar, h, ih]

theorem replace5_single (x : Char) : replace5 [x] = escapeCharL x := by
  by_cases h1 : x = '&'
  · subst h1; decide
  · by_cases h2 : x = '<'
    · subst h2; decide
    · by_cases h3 : x = '>'
      · subst h3; decide
      · by_cases h4 : x = '"'
        · subst h4; decide
        · by_cases h5 : x = '\x27'
          · subst h5; decide
          · simp [replace5, replaceAllChar, escapeCharL, h1, h2, h3, h4, h5]

theorem replace5_eq (l : List Char) : replace5 l = escapeAll l := by
  induction l with
  | nil => rfl
  | cons x xs ih =>
    have h : replace5 (x :: xs) = replace5 [x] ++ replace5 xs := by
      show replace5 ([x] ++ xs) = replace5 [x] ++ replace5 xs
      simp only [replace5, replaceAllChar_append]
    rw [h, replace5_single, ih]
    rfl

/-- The sequential replacements of the source are equivalent to the
single-pass per-character escape: entities inserted by an earlier
replacement are never touched by a later one. -/
theorem escapeHtml_escapeAll (s : String) : escapeHtml s = ⟨escapeAll s.data⟩ := by
  by_cases h : s = ""
  · subst h; rfl
  · simp only [escapeHtml, h, if_false, replace5_eq]

theorem append_ne_empty_left (s t : String) (h : s ≠ "") : s ++ t ≠ "" := by
  intro heq
  apply h
  apply String.ext
  have hd := congrArg String.data heq
  rw [String.data_append] at hd
  rcases List.append_eq_nil.mp hd with ⟨h1, _⟩
  exact h1.trans rfl

theorem companyLine_of_trim (s : String) (hs : jsTrim s ≠ "") :
    companyLine (.jstr s) = fmtCompanyLabel ++ (⟨escapeAll s.data⟩ : String) ++ "\n" := by
  have hs' : s ≠ "" := by
    intro h0
    subst h0
    exact hs rfl
  simp only [companyLine, bne_iff_ne, ne_eq]
  rw [if_pos (by simp [hs, hs']), escapeHtml_escapeAll]

/-- C1: for every input, the formatted message contains, in place of every
occurrence of `&`, `<`, `>`, `"`, `'` in the user-supplied name, email,
company and message values, only the corresponding escaped entity
(`escapeAll` maps each character to its entity, and the sequential
source replacements with `&` first equal that single pass); and the company
line appears in the output if and only if `company` is a present string
that is not purely whitespace. -/
theorem c1_format_escaping (n e m : String) (c : JsValue) (dt : String) :
    formatTelegramMessage (.jstr n) (.jstr e) c (.jstr m) dt
      = fmtTitle ++ fmtNameLabel ++ (⟨escapeAll n.data⟩ : String) ++ "\n"
        ++ fmtEmailLabel ++ (⟨escapeAll e.data⟩ : String) ++ "\n"
        ++ companyLine c
        ++ fmtMessageLabel ++ (⟨escapeAll m.data⟩ : String) ++ "\n\n"
        ++ fmtSentLabel ++ dt
    ∧ (companyLine c ≠ "" ↔ ∃ s, c = .jstr s ∧ jsTrim s ≠ "")
    ∧ ∀ s : String, jsTrim s ≠ "" →
        companyLine (.jstr s) = fmtCompanyLabel ++ (⟨escapeAll s.data⟩ : String) ++ "\n" := by
  refine ⟨?_, ⟨?_, ?_⟩, fun s hs => companyLine_of_trim s hs⟩
  · simp only [formatTelegramMessage, escapeHtmlJs, escapeHtml_escapeAll]
  · intro h
    cases c with
    | undef => exact absurd rfl h
    | jnull => exact absurd rfl h
    | jstr s =>
      refine ⟨s, rfl, ?_⟩
      intro ht
      apply h
      simp [companyLine, ht]
  · rintro ⟨s, rfl, hs⟩
    rw [companyLine_of_trim s hs]
    apply append_ne_empty_left
    apply append_ne_empty_left
    decide

def specialChar (c : Char) : Bool :=
  c == '&' || c == '<' || c == '>' || c == '"' || c == '\x27'

theorem escapeCharL_length (c : Char) : 1 ≤ (escapeCharL c).length := by
  unfold escapeCharL
  repeat' split
  all_goals first
  | decide
  | simp

theorem escapeAll_length_le (l : List Char) : l.length ≤ (escapeAll l).length := by
  induction l with
  | nil => simp [escapeAll]
  | cons x xs ih =>
    have h1 := escapeCharL_length x
    simp only [escapeAll, List.length_append, List.length_cons]
    omega

theorem amp_mem_escapeCharL (c : Char) (h : specialChar c = true) : '&' ∈ escapeCharL c := by
  simp only [specialChar, Bool.or_eq_true, beq_iff_eq] at h
  rcases h with (((h | h) | h) | h) | h <;> subst h <;> decide

theorem amp_mem_escapeAll (l : List Char) (h : ∃ c ∈ l, specialChar c = true) :
    '&' ∈ escapeAll l := by
  induction l with
  | nil =>
    rcases h with ⟨c, hc, _⟩
    cases hc
  | cons x xs ih =>
    rcases h with ⟨c, hc, hs⟩
    simp only [escapeAll, List.mem_append]
    rcases List.mem_cons.mp hc with h1 | h1
    · subst h1
      exact Or.inl (amp_mem_escapeCharL c hs)
    · exact Or.inr (ih ⟨c, h1, hs⟩)

theorem escapeAll_length_gt (l : List Char) (h : '&' ∈ l) :
    l.length < (escapeAll l).length := by
  induction l with
  | nil => cases h
  | cons x xs ih =>
    simp only [escapeAll, List.length_append, List.length_cons]
    rcases List.mem_cons.mp h with h1 | h1
    · subst h1
      have h5 : (escapeCharL '&').length = 5 := by decide
      have hle := escapeAll_length_le xs
      omega
    · have hlt := ih h1
      have h1' := escapeCharL_length x
      omega

/-- C9: escaping is single-pass and not idempotent: for every text that
contains at least one of the five special characters, escaping twice gives
a different string from escaping once (the `&` of the inserted entity is
escaped again). -/
theorem c9_escape_not_idempotent (s : String) (h : ∃ c ∈ s.data, specialChar c = true) :
    escapeHtml (escapeHtml s) ≠ escapeHtml s := by
  intro heq
  have h1 : '&' ∈ (escapeHtml s).data := by
    rw [escapeHtml_escapeAll]
    exact amp_mem_escapeAll s.data h
  have h2 := escapeAll_length_gt _ h1
  have h4 : (escapeHtml (escapeHtml s)).data = (escapeHtml s).data := by rw [heq]
  rw [escapeHtml_escapeAll (escapeHtml s)] at h4
  have h5 := congrArg List.length h4
  simp only at h5
  omega

/-- C9 witness at the claim's example: `"&amp;"` contains a special
character, and escaping it twice differs from escaping it once. -/
theorem c9_escape_not_idempotent_witness :
    (∃ c ∈ ("&amp;" : String).data, specialChar c = true)
      ∧ escapeHtml (escapeHtml "&amp;") ≠ escapeHtml "&amp;" :=
  ⟨by decide, c9_escape_not_idempotent "&amp;" (by decide)⟩

theorem netlifyHandler_valid (env : Env) (parse : String → Except String ParsedJson)
    (jsNumber : String → Option Int) (dt : String) (apiResult : Except String TgResponse)
    (bdy : String) (f : FormBody)
    (hp : parse bdy = .ok (.jobj f))
    (hn : jsTruthy f.name = true) (he : jsTruthy f.email = true)
    (hg : jsTruthy f.message = true)
    (het : emailTest (jsValueStr f.email) = true)
    (htok : envSet env.TELEGRAM_BOT_TOKEN = true)
    (hch : envSet env.TELEGRAM_CHAT_ID = true) :
    netlifyHandler env parse jsNumber dt apiResult ⟨"POST", bdy⟩
      = netlifySendPhase env jsNumber dt f apiResult
          (if envSet env.TELEGRAM_TOPIC_ID
              && ((jsNumber ((env.TELEGRAM_TOPIC_ID).getD "")).isNone)
           then [("warn", logTopicWarn)] else []) := by
  simp [netlifyHandler, hp, fieldsOf, hn, he, hg, het, htok, hch]

theorem apiHandler_valid (env : Env) (parse : String → Except String ParsedJson)
    (jsNumber : String → Option Int) (dt : String) (apiResult : Except String TgResponse)
    (f : FormBody) (chatNum : Int)
    (hn : jsTruthy f.name = true) (he : jsTruthy f.email = true)
    (hg : jsTruthy f.message = true)
    (het : emailTest (jsValueStr f.email) = true)
    (htok : envSet env.TELEGRAM_BOT_TOKEN = true)
    (hch : envSet env.TELEGRAM_CHAT_ID = true)
    (hnum : jsNumber ((env.TELEGRAM_CHAT_ID).getD "") = some chatNum) :
    apiHandler env parse jsNumber dt apiResult ⟨"POST", .bval (.jobj f)⟩
      = (match apiResult with
         | .error m => apiFail m (some (apiOutReq ((env.TELEGRAM_BOT_TOKEN).getD "") chatNum dt f))
         | .ok resp =>
           if resp.ok then
             match resp.result with
             | some r =>
               { response := { status := 200, headers := corsHeaders,
                               body := some { success := true, message := some msgSentOk,
                                              messageId := some r.message_id } },
                 outbound := some (apiOutReq ((env.TELEGRAM_BOT_TOKEN).getD "") chatNum dt f) }
             | none => apiFail msgReadUndef (some (apiOutReq ((env.TELEGRAM_BOT_TOKEN).getD "") chatNum dt f))
           else
             apiFail (msgTgApiError ++ jsOrNumStr resp.error_code msgUnknownLower
                 ++ " - " ++ jsOrStr resp.description msgUnknownError)
               (some (apiOutReq ((env.TELEGRAM_BOT_TOKEN).getD "") chatNum dt f))) := by
  simp [apiHandler, apiCont, fieldsOf, hn, he, hg, het, htok, hch, hnum]

theorem plainHandler_valid (env : Env) (dt : String) (apiResult : Except String TgResponse)
    (f : FormBody)
    (hn : jsTruthy f.name = true) (he : jsTruthy f.email = true)
    (hg : jsTruthy f.message = true)
    (het : emailTest (jsValueStr f.email) = true)
    (htok : envSet env.TELEGRAM_BOT_TOKEN = true)
    (hch : envSet env.TELEGRAM_CHAT_ID = true) :
    plainHandler env dt apiResult ⟨"POST", .jobj f⟩ = plainSendPhase env dt f apiResult := by
  simp [plainHandler, fieldsOf, hn, he, hg, het, htok, hch]

theorem netlifySendPhase_outbound (env : Env) (jsNumber : String → Option Int)
    (dt : String) (f : FormBody) (apiResult : Except String TgResponse)
    (warnLogs : List (String × String)) :
    (netlifySendPhase env jsNumber dt f apiResult warnLogs).outbound
      = some (netlifyOutReq env jsNumber dt f) := by
  cases apiResult with
  | error m => simp [netlifySendPhase, netlifyFail]
  | ok resp =>
    cases hok : resp.ok
    · simp [netlifySendPhase, hok, netlifyFail]
    · cases hr : resp.result
      · simp [netlifySendPhase, hok, hr, netlifyFail]
      · simp [netlifySendPhase, hok, hr]

theorem netlifyTopicId_of_set (env : Env) (jsNumber : String → Option Int) (t : String)
    (htop : env.TELEGRAM_TOPIC_ID = some t) (ht : t ≠ "") :
    netlifyTopicId env jsNumber = jsNumber t := by
  simp [netlifyTopicId, htop, envSet, bne_iff_ne, ht]

/-- Sample environment with both secrets configured, no topic, production
mode. -/
def envOk : Env :=
  { TELEGRAM_BOT_TOKEN := some "token123", TELEGRAM_CHAT_ID := some "777",
    TELEGRAM_TOPIC_ID := none, NODE_ENV := none }

/-- Sample valid form submission. -/
def formOk : FormBody :=
  { name := .jstr "Alice", email := .jstr "a@b.c", company := .undef,
    message := .jstr "Hello" }

/-- Sample `JSON.parse` capability that succeeds with `formOk`. -/
def parseOk : String → Except String ParsedJson := fun _ => .ok (.jobj formOk)

/-- Sample `JSON.parse` capability that throws (malformed JSON). -/
def parseBad : String → Except String ParsedJson :=
  fun _ => .error "Unexpected token o in JSON at position 1"

/-- Sample `Number` capability that always coerces. -/
def jsNumAll : String → Option Int := fun _ => some 777

/-- Sample `Number` capability that always yields `NaN`. -/
def jsNumNone : String → Option Int := fun _ => none

/-- C2: given valid input and configuration, a downstream response
`{ok:true, result:{message_id:mid}}` yields HTTP 200 with `success:true`
and `messageId:mid`, while a downstream `ok:false` response or a thrown
network call yields HTTP 500 with `success:false` and the generic
"Failed to send Telegram notification" message — for both the Netlify and
the CORS-aware handlers. -/
theorem c2_response_mapping (env : Env) (parse : String → Except String ParsedJson)
    (jsNumber : String → Option Int) (dt bdy em : String) (f : FormBody)
    (mid chatNum : Int) (r0 : Option TgResult) (ec : Option Int) (ds : Option String)
    (hp : parse bdy = .ok (.jobj f))
    (hn : jsTruthy f.name = true) (he : jsTruthy f.email = true)
    (hg : jsTruthy f.message = true)
    (het : emailTest (jsValueStr f.email) = true)
    (htok : envSet env.TELEGRAM_BOT_TOKEN = true)
    (hch : envSet env.TELEGRAM_CHAT_ID = true)
    (hnum : jsNumber ((env.TELEGRAM_CHAT_ID).getD "") = some chatNum) :
    (netlifyHandler env parse jsNumber dt (.ok ⟨true, some ⟨mid⟩, ec, ds⟩) ⟨"POST", bdy⟩).response
      = { statusCode := 200,
          body := { success := true, message := some msgSentOk, messageId := some mid } }
    ∧ ((netlifyHandler env parse jsNumber dt (.ok ⟨false, r0, ec, ds⟩) ⟨"POST", bdy⟩).response.statusCode = 500
        ∧ (netlifyHandler env parse jsNumber dt (.ok ⟨false, r0, ec, ds⟩) ⟨"POST", bdy⟩).response.body.success = false
        ∧ (netlifyHandler env parse jsNumber dt (.ok ⟨false, r0, ec, ds⟩) ⟨"POST", bdy⟩).response.body.error = some msgGenericFailure)
    ∧ ((netlifyHandler env parse jsNumber dt (.error em) ⟨"POST", bdy⟩).response.statusCode = 500
        ∧ (netlifyHandler env parse jsNumber dt (.error em) ⟨"POST", bdy⟩).response.body.success = false
        ∧ (netlifyHandler env parse jsNumber dt (.error em) ⟨"POST", bdy⟩).response.body.error = some msgGenericFailure)
    ∧ (apiHandler env parse jsNumber dt (.ok ⟨true, some ⟨mid⟩, ec, ds⟩) ⟨"POST", .bval (.jobj f)⟩).response
      = { status := 200, headers := corsHeaders,
          body := some { success := true, message := some msgSentOk, messageId := some mid } }
    ∧ ((apiHandler env parse jsNumber dt (.ok ⟨false, r0, ec, ds⟩) ⟨"POST", .bval (.jobj f)⟩).response.status = 500
        ∧ (apiHandler env parse jsNumber dt (.ok ⟨false, r0, ec, ds⟩) ⟨"POST", .bval (.jobj f)⟩).response.body
            = some { success := false, error := some msgGenericFailure,
                     details := some (jsOrStr (some (msgTgApiError ++ jsOrNumStr ec msgUnknownLower
                         ++ " - " ++ jsOrStr ds msgUnknownError)) msgUnknownError) })
    ∧ ((apiHandler env parse jsNumber dt (.error em) ⟨"POST", .bval (.jobj f)⟩).response.status = 500
        ∧ (apiHandler env parse jsNumber dt (.error em) ⟨"POST", .bval (.jobj f)⟩).response.body
            = some { success := false, error := some msgGenericFailure,
                     details := some (jsOrStr (some em) msgUnknownError) }) := by
  refine ⟨?_, ⟨?_, ?_, ?_⟩, ⟨?_, ?_, ?_⟩, ?_, ⟨?_, ?_⟩, ⟨?_, ?_⟩⟩ <;>
    simp [netlifyHandler_valid env parse jsNumber dt _ bdy f hp hn he hg het htok hch,
      apiHandler_valid env parse jsNumber dt _ f chatNum hn he hg het htok hch hnum,
      netlifySendPhase, netlifyFail, apiFail]

/-- C2 witness: the concrete instance of the claim, with message id 42. -/
theorem c2_response_mapping_witness :
    (parseOk "b" = .ok (.jobj formOk)
      ∧ jsTruthy formOk.name = true ∧ jsTruthy formOk.email = true
      ∧ jsTruthy formOk.message = true
      ∧ emailTest (jsValueStr formOk.email) = true
      ∧ envSet envOk.TELEGRAM_BOT_TOKEN = true
      ∧ envSet envOk.TELEGRAM_CHAT_ID = true
      ∧ jsNumAll ((envOk.TELEGRAM_CHAT_ID).getD "") = some 777)
    ∧ (netlifyHandler envOk parseOk jsNumAll "d" (.ok ⟨true, some ⟨42⟩, none, none⟩) ⟨"POST", "b"⟩).response
      = { statusCode := 200,
          body := { success := true, message := some msgSentOk, messageId := some 42 } } :=
  ⟨⟨rfl, by decide, by decide, by decide, by decide, by decide, by decide, rfl⟩,
    (c2_response_mapping envOk parseOk jsNumAll "d" "b" "net" formOk 42 777 none none none
      rfl (by decide) (by decide) (by decide) (by decide) (by decide) (by decide) rfl).1⟩

/-- C3: with a valid POST body but `BOT_TOKEN` or `CHAT_ID` falsy, each of
the three handlers responds HTTP 500 with `success:false` and the
not-configured message, and no outbound request is issued. -/
theorem c3_missing_config (env : Env) (parse : String → Except String ParsedJson)
    (jsNumber : String → Option Int) (dt bdy : String) (f : FormBody)
    (apiResult : Except String TgResponse)
    (hp : parse bdy = .ok (.jobj f))
    (hn : jsTruthy f.name = true) (he : jsTruthy f.email = true)
    (hg : jsTruthy f.message = true)
    (het : emailTest (jsValueStr f.email) = true)
    (hcfg : envSet env.TELEGRAM_BOT_TOKEN = false ∨ envSet env.TELEGRAM_CHAT_ID = false) :
    netlifyHandler env parse jsNumber dt apiResult ⟨"POST", bdy⟩
      = { response := { statusCode := 500,
                        body := { success := false, error := some msgNotConfigured } },
          outbound := none, logs := [("error", logConfigMissing)] }
    ∧ apiHandler env parse jsNumber dt apiResult ⟨"POST", .bval (.jobj f)⟩
      = { response := { status := 500, headers := corsHeaders,
                        body := some { success := false,
                                       error := some (msgNotConfigured ++ msgConfigSuffix) } },
          outbound := none }
    ∧ plainHandler env dt apiResult ⟨"POST", .jobj f⟩
      = { response := { status := 500, headers := [],
                        body := some { success := false,
                                       error := some (msgNotConfigured ++ msgConfigSuffix) } },
          outbound := none } := by
  rcases hcfg with hc | hc <;> refine ⟨?_, ?_, ?_⟩ <;>
    simp [netlifyHandler, apiHandler, apiCont, plainHandler, fieldsOf,
      hp, hn, he, hg, het, hc]

/-- Sample environment with the bot token missing. -/
def envNoTok : Env :=
  { TELEGRAM_BOT_TOKEN := none, TELEGRAM_CHAT_ID := some "777",
    TELEGRAM_TOPIC_ID := none, NODE_ENV := none }

/-- C3 witness: valid form, token missing, Netlify handler answers 500 and
issues no outbound call. -/
theorem c3_missing_config_witness :
    (parseOk "b" = .ok (.jobj formOk)
      ∧ jsTruthy formOk.name = true ∧ jsTruthy formOk.email = true
      ∧ jsTruthy formOk.message = true
      ∧ emailTest (jsValueStr formOk.email) = true
      ∧ envSet envNoTok.TELEGRAM_BOT_TOKEN = false)
    ∧ netlifyHandler envNoTok parseOk jsNumAll "d" (.error "never") ⟨"POST", "b"⟩
      = { response := { statusCode := 500,
                        body := { success := false, error := some msgNotConfigured } },
          outbound := none, logs := [("error", logConfigMissing)] } :=
  ⟨⟨rfl, by decide, by decide, by decide, by decide, by decide⟩,
    (c3_missing_config envNoTok parseOk jsNumAll "d" "b" formOk (.error "never")
      rfl (by decide) (by decide) (by decide) (by decide) (Or.inl (by decide))).1⟩

/-- C4: a POST whose parsed body has a falsy `name`, `email` or `message`
(absent, null or empty string) yields HTTP 400 with `success:false` and the
missing-fields message, in all three handlers. -/
theorem c4_missing_fields (env : Env) (parse : String → Except String ParsedJson)
    (jsNumber : String → Option Int) (dt bdy : String) (f : FormBody)
    (apiResult : Except String TgResponse)
    (hp : parse bdy = .ok (.jobj f))
    (hmiss : jsTruthy f.name = false ∨ jsTruthy f.email = false
      ∨ jsTruthy f.message = false) :
    netlifyHandler env parse jsNumber dt apiResult ⟨"POST", bdy⟩
      = { response := { statusCode := 400,
                        body := { success := false, error := some msgMissingFields } },
          outbound := none, logs := [] }
    ∧ apiHandler env parse jsNumber dt apiResult ⟨"POST", .bval (.jobj f)⟩
      = { response := { status := 400, headers := corsHeaders,
                        body := some { success := false, error := some msgMissingFields } },
          outbound := none }
    ∧ plainHandler env dt apiResult ⟨"POST", .jobj f⟩
      = { response := { status := 400, headers := [],
                        body := some { success := false, error := some msgMissingFields } },
          outbound := none } := by
  rcases hmiss with hc | hc | hc <;> refine ⟨?_, ?_, ?_⟩ <;>
    simp [netlifyHandler, apiHandler, apiCont, plainHandler, fieldsOf, hp, hc]

/-- Sample form with an empty name. -/
def formNoName : FormBody :=
  { name := .jstr "", email := .jstr "a@b.c", company := .undef,
    message := .jstr "Hi" }

/-- C4 witness: empty `name` yields the 400 missing-fields response. -/
theorem c4_missing_fields_witness :
    ((fun (_ : String) => (.ok (.jobj formNoName) : Except String ParsedJson)) "b"
        = .ok (.jobj formNoName)
      ∧ jsTruthy formNoName.name = false)
    ∧ netlifyHandler envOk (fun _ => .ok (.jobj formNoName)) jsNumAll "d"
        (.error "never") ⟨"POST", "b"⟩
      = { response := { statusCode := 400,
                        body := { success := false, error := some msgMissingFields } },
          outbound := none, logs := [] } :=
  ⟨⟨rfl, by decide⟩,
    (c4_missing_fields envOk (fun _ => .ok (.jobj formNoName)) jsNumAll "d" "b"
      formNoName (.error "never") rfl (Or.inl (by decide))).1⟩

/-- C5: any method other than POST is answered with HTTP 405,
`success:false` and an error message beginning with "Method not allowed";
the CORS-aware variant first answers OPTIONS with a bare 200 carrying the
permissive CORS headers, and its 405 names the received method. -/
theorem c5_method_gate (env : Env) (parse : String → Except String ParsedJson)
    (jsNumber : String → Option Int) (dt bdy m1 m2 : String) (ab : JsBody)
    (pb : ParsedJson) (apiResult : Except String TgResponse)
    (h1 : m1 ≠ "POST") (h2 : m2 ≠ "POST") (h3 : m2 ≠ "OPTIONS") :
    netlifyHandler env parse jsNumber dt apiResult ⟨m1, bdy⟩
      = { response := { statusCode := 405,
                        body := { success := false,
                                  error := some (msgMethodStem ++ ". Use POST.") } },
          outbound := none, logs := [] }
    ∧ apiHandler env parse jsNumber dt apiResult ⟨"OPTIONS", ab⟩
      = { response := { status := 200, headers := corsHeaders, body := none },
          outbound := none }
    ∧ apiHandler env parse jsNumber dt apiResult ⟨m2, ab⟩
      = { response := { status := 405, headers := corsHeaders,
                        body := some { success := false,
                                       error := some (msgMethodStem ++ ". Use POST."
                                         ++ " Received: " ++ m2) } },
          outbound := none }
    ∧ plainHandler env dt apiResult ⟨m1, pb⟩
      = { response := { status := 405, headers := [],
                        body := some { success := false,
                                       error := some (msgMethodStem ++ ". Use POST.") } },
          outbound := none } := by
  refine ⟨?_, ?_, ?_, ?_⟩ <;>
    simp [netlifyHandler, apiHandler, plainHandler, msgMethodNotAllowed,
      bne_iff_ne, h1, h2, h3]

/-- C5 witness at method GET. -/
theorem c5_method_gate_witness :
    (("GET" : String) ≠ "POST" ∧ ("GET" : String) ≠ "OPTIONS")
    ∧ netlifyHandler envOk parseOk jsNumAll "d" (.error "never") ⟨"GET", "b"⟩
      = { response := { statusCode := 405,
                        body := { success := false,
                                  error := some (msgMethodStem ++ ". Use POST.") } },
          outbound := none, logs := [] } :=
  ⟨⟨by decide, by decide⟩,
    (c5_method_gate envOk parseOk jsNumAll "d" "b" "GET" "GET"
      (.bval (.jobj formOk)) (.jobj formOk) (.error "never")
      (by decide) (by decide) (by decide)).1⟩

/-- C10: with valid input and configuration, a downstream response with
`ok:true` but no `result` object never yields a 200 with a message id: the
unguarded `result.message_id` access throws, and the handler responds 500
with `success:false` and the generic failure message (Netlify and
CORS-aware variants). -/
theorem c10_missing_result (env : Env) (parse : String → Except String ParsedJson)
    (jsNumber : String → Option Int) (dt bdy : String) (f : FormBody)
    (chatNum : Int) (ec : Option Int) (ds : Option String)
    (hp : parse bdy = .ok (.jobj f))
    (hn : jsTruthy f.name = true) (he : jsTruthy f.email = true)
    (hg : jsTruthy f.message = true)
    (het : emailTest (jsValueStr f.email) = true)
    (htok : envSet env.TELEGRAM_BOT_TOKEN = true)
    (hch : envSet env.TELEGRAM_CHAT_ID = true)
    (hnum : jsNumber ((env.TELEGRAM_CHAT_ID).getD "") = some chatNum) :
    (netlifyHandler env parse jsNumber dt (.ok ⟨true, none, ec, ds⟩) ⟨"POST", bdy⟩).response
      = { statusCode := 500,
          body := { success := false, error := some msgGenericFailure,
                    details := if isDev env then some msgReadUndef else none } }
    ∧ (apiHandler env parse jsNumber dt (.ok ⟨true, none, ec, ds⟩) ⟨"POST", .bval (.jobj f)⟩).response
      = { status := 500, headers := corsHeaders,
          body := some { success := false, error := some msgGenericFailure,
                         details := some msgReadUndef } } := by
  have hm : ((msgReadUndef == "") = false) := by decide
  refine ⟨?_, ?_⟩ <;>
    simp [netlifyHandler_valid env parse jsNumber dt _ bdy f hp hn he hg het htok hch,
      apiHandler_valid env parse jsNumber dt _ f chatNum hn he hg het htok hch hnum,
      netlifySendPhase, netlifyFail, apiFail, jsOrStr, hm]

/-- C10 witness: concrete valid request, downstream `ok:true` without a
`result`, Netlify handler answers 500. -/
theorem c10_missing_result_witness :
    (parseOk "b" = .ok (.jobj formOk)
      ∧ emailTest (jsValueStr formOk.email) = true
      ∧ jsNumAll ((envOk.TELEGRAM_CHAT_ID).getD "") = some 777)
    ∧ (netlifyHandler envOk parseOk jsNumAll "d" (.ok ⟨true, none, none, none⟩) ⟨"POST", "b"⟩).response
      = { statusCode := 500,
          body := { success := false, error := some msgGenericFailure,
                    details := if isDev envOk then some msgReadUndef else none } } :=
  ⟨⟨rfl, by decide, rfl⟩,
    (c10_missing_result envOk parseOk jsNumAll "d" "b" formOk 777 none none
      rfl (by decide) (by decide) (by decide) (by decide) (by decide) (by decide) rfl).1⟩

/-- C6 counterexample: the claim says a POST whose raw body fails JSON
parsing is answered with HTTP 400, but the Netlify handler has no dedicated
handling for the `JSON.parse` throw — its generic catch block answers 500
with the generic failure message. -/
theorem c6_counterexample :
    (netlifyHandler envOk parseBad jsNumAll "d" (.ok ⟨true, some ⟨42⟩, none, none⟩)
        ⟨"POST", "not json"⟩).response.statusCode = 500
    ∧ ¬((netlifyHandler envOk parseBad jsNumAll "d" (.ok ⟨true, some ⟨42⟩, none, none⟩)
        ⟨"POST", "not json"⟩).response.statusCode = 400)
    ∧ (netlifyHandler envOk parseBad jsNumAll "d" (.ok ⟨true, some ⟨42⟩, none, none⟩)
        ⟨"POST", "not json"⟩).response.body.error = some msgGenericFailure := by
  refine ⟨?_, ?_, ?_⟩ <;> decide

/-- C6 (amended): a POST whose string body fails JSON parsing is answered
with HTTP 400 and the invalid-JSON message by the CORS-aware variant only;
the Netlify variant catches the parse throw in its generic handler and
answers HTTP 500 with `success:false`, the generic failure message, and no
outbound call. -/
theorem c6_amended (env : Env) (parse : String → Except String ParsedJson)
    (jsNumber : String → Option Int) (dt s em : String)
    (apiResult : Except String TgResponse)
    (hp : parse s = .error em) :
    apiHandler env parse jsNumber dt apiResult ⟨"POST", .bstr s⟩
      = { response := { status := 400, headers := corsHeaders,
                        body := some { success := false, error := some msgInvalidJson } },
          outbound := none }
    ∧ ((netlifyHandler env parse jsNumber dt apiResult ⟨"POST", s⟩).response.statusCode = 500
        ∧ (netlifyHandler env parse jsNumber dt apiResult ⟨"POST", s⟩).response.body.success = false
        ∧ (netlifyHandler env parse jsNumber dt apiResult ⟨"POST", s⟩).response.body.error
            = some msgGenericFailure
        ∧ (netlifyHandler env parse jsNumber dt apiResult ⟨"POST", s⟩).outbound = none) := by
  refine ⟨?_, ?_, ?_, ?_, ?_⟩ <;>
    simp [apiHandler, netlifyHandler, netlifyFail, hp]

/-- C6 witness: a concrete parse failure, 400 from the CORS-aware
handler. -/
theorem c6_amended_witness :
    parseBad "not json" = .error "Unexpected token o in JSON at position 1"
    ∧ apiHandler envOk parseBad jsNumAll "d" (.error "never") ⟨"POST", .bstr "not json"⟩
      = { response := { status := 400, headers := corsHeaders,
                        body := some { success := false, error := some msgInvalidJson } },
          outbound := none } :=
  ⟨rfl,
    (c6_amended envOk parseBad jsNumAll "d" "not json"
      "Unexpected token o in JSON at position 1" (.error "never") rfl).1⟩

/-- C7 counterexample: the claim says raw error detail appears in `details`
only under `NODE_ENV === 'development'`, but the CORS-aware variant (cited
by the claim) always includes `details: error.message`: with `NODE_ENV`
unset and a thrown network call, the 500 body still carries the raw
message. -/
theorem c7_counterexample :
    (apiHandler envOk parseOk jsNumAll "d" (.error "boom")
        ⟨"POST", .bval (.jobj formOk)⟩).response.body
      = some { success := false, error := some msgGenericFailure,
               details := some "boom" }
    ∧ envOk.NODE_ENV ≠ some "development" := by
  refine ⟨?_, ?_⟩ <;> decide

/-- C7 (amended): for every forwarding failure (thrown network call,
downstream `ok:false`, or `ok:true` without a `result`), the Netlify and
plain variants include the raw error detail in `details` exactly when
`NODE_ENV === 'development'` and omit the field otherwise, while the
CORS-aware variant always includes `details` (the raw message, or
"Unknown error" when the message is empty). -/
theorem c7_amended (env : Env) (parse : String → Except String ParsedJson)
    (jsNumber : String → Option Int) (dt bdy em : String) (f : FormBody)
    (chatNum : Int) (r0 : Option TgResult) (ec : Option Int) (ds : Option String)
    (hp : parse bdy = .ok (.jobj f))
    (hn : jsTruthy f.name = true) (he : jsTruthy f.email = true)
    (hg : jsTruthy f.message = true)
    (het : emailTest (jsValueStr f.email) = true)
    (htok : envSet env.TELEGRAM_BOT_TOKEN = true)
    (hch : envSet env.TELEGRAM_CHAT_ID = true)
    (hnum : jsNumber ((env.TELEGRAM_CHAT_ID).getD "") = some chatNum) :
    (netlifyHandler env parse jsNumber dt (.error em) ⟨"POST", bdy⟩).response.body.details
      = (if isDev env then some em else none)
    ∧ (netlifyHandler env parse jsNumber dt (.ok ⟨false, r0, ec, ds⟩) ⟨"POST", bdy⟩).response.body.details
      = (if isDev env then some (msgTgApiError ++ jsOrStr ds msgUnknownError) else none)
    ∧ (netlifyHandler env parse jsNumber dt (.ok ⟨true, none, ec, ds⟩) ⟨"POST", bdy⟩).response.body.details
      = (if isDev env then some msgReadUndef else none)
    ∧ (plainHandler env dt (.error em) ⟨"POST", .jobj f⟩).response.body
      = some { success := false, error := some msgGenericFailure,
               details := if isDev env then some em else none }
    ∧ (plainHandler env dt (.ok ⟨false, r0, ec, ds⟩) ⟨"POST", .jobj f⟩).response.body
      = some { success := false, error := some msgGenericFailure,
               details := if isDev env then some (msgTgApiError ++ jsOrStr ds msgUnknownError) else none }
    ∧ (plainHandler env dt (.ok ⟨true, none, ec, ds⟩) ⟨"POST", .jobj f⟩).response.body
      = some { success := false, error := some msgGenericFailure,
               details := if isDev env then some msgReadUndef else none }
    ∧ (apiHandler env parse jsNumber dt (.error em) ⟨"POST", .bval (.jobj f)⟩).response.body
      = some { success := false, error := some msgGenericFailure,
               details := some (jsOrStr (some em) msgUnknownError) }
    ∧ (apiHandler env parse jsNumber dt (.ok ⟨false, r0, ec, ds⟩) ⟨"POST", .bval (.jobj f)⟩).response.body
      = some { success := false, error := some msgGenericFailure,
               details := some (jsOrStr (some (msgTgApiError ++ jsOrNumStr ec msgUnknownLower
                   ++ " - " ++ jsOrStr ds msgUnknownError)) msgUnknownError) }
    ∧ (apiHandler env parse jsNumber dt (.ok ⟨true, none, ec, ds⟩) ⟨"POST", .bval (.jobj f)⟩).response.body
      = some { success := false, error := some msgGenericFailure,
               details := some (jsOrStr (some msgReadUndef) msgUnknownError) } := by
  refine ⟨?_, ?_, ?_, ?_, ?_, ?_, ?_, ?_, ?_⟩ <;>
    simp [netlifyHandler_valid env parse jsNumber dt _ bdy f hp hn he hg het htok hch,
      apiHandler_valid env parse jsNumber dt _ f chatNum hn he hg het htok hch hnum,
      plainHandler_valid env dt _ f hn he hg het htok hch,
      netlifySendPhase, plainSendPhase, netlifyFail, plainFail, apiFail]

/-- C7 witness: production environment, thrown network call — the Netlify
handler omits `details`. -/
theorem c7_amended_witness :
    (parseOk "b" = .ok (.jobj formOk) ∧ isDev envOk = false)
    ∧ (netlifyHandler envOk parseOk jsNumAll "d" (.error "boom") ⟨"POST", "b"⟩).response.body.details
      = (if isDev envOk then some "boom" else none) :=
  ⟨⟨rfl, by decide⟩,
    (c7_amended envOk parseOk jsNumAll "d" "b" "boom" formOk 777 none none none
      rfl (by decide) (by decide) (by decide) (by decide) (by decide) (by decide) rfl).1⟩

/-- C8: in the topic-aware (Netlify) variant, with valid input and
configuration and a truthy `TOPIC_ID`: the outbound payload carries
`message_thread_id` exactly when `Number(TOPIC_ID)` resolves (it equals the
coercion result, `none` standing for an absent field); and when coercion
fails (NaN) the request still succeeds — a 200 is returned on a successful
downstream response — and the warning is logged. -/
theorem c8_topic_handling (env : Env) (parse : String → Except String ParsedJson)
    (jsNumber : String → Option Int) (dt bdy t : String) (f : FormBody)
    (mid : Int) (ec : Option Int) (ds : Option String)
    (apiResult : Except String TgResponse)
    (htop : env.TELEGRAM_TOPIC_ID = some t) (ht : t ≠ "")
    (hp : parse bdy = .ok (.jobj f))
    (hn : jsTruthy f.name = true) (he : jsTruthy f.email = true)
    (hg : jsTruthy f.message = true)
    (het : emailTest (jsValueStr f.email) = true)
    (htok : envSet env.TELEGRAM_BOT_TOKEN = true)
    (hch : envSet env.TELEGRAM_CHAT_ID = true) :
    ((netlifyHandler env parse jsNumber dt apiResult ⟨"POST", bdy⟩).outbound).map
        (fun q => q.message_thread_id) = some (jsNumber t)
    ∧ (jsNumber t = none →
        (netlifyHandler env parse jsNumber dt (.ok ⟨true, some ⟨mid⟩, ec, ds⟩) ⟨"POST", bdy⟩).response
          = { statusCode := 200,
              body := { success := true, message := some msgSentOk,
                        messageId := some mid } })
    ∧ (jsNumber t = none →
        ("warn", logTopicWarn)
          ∈ (netlifyHandler env parse jsNumber dt (.ok ⟨true, some ⟨mid⟩, ec, ds⟩) ⟨"POST", bdy⟩).logs) := by
  refine ⟨?_, ?_, ?_⟩
  · rw [netlifyHandler_valid env parse jsNumber dt apiResult bdy f hp hn he hg het htok hch,
      netlifySendPhase_outbound]
    simp [netlifyOutReq, netlifyTopicId_of_set env jsNumber t htop ht]
  · intro hnan
    rw [netlifyHandler_valid env parse jsNumber dt _ bdy f hp hn he hg het htok hch]
    simp [netlifySendPhase]
  · intro hnan
    rw [netlifyHandler_valid env parse jsNumber dt _ bdy f hp hn he hg het htok hch]
    simp [netlifySendPhase, htop, envSet, bne_iff_ne, ht, hnan]

/-- Sample environment with a non-numeric topic id configured. -/
def envTopicBad : Env :=
  { TELEGRAM_BOT_TOKEN := some "token123", TELEGRAM_CHAT_ID := some "777",
    TELEGRAM_TOPIC_ID := some "abc", NODE_ENV := none }

/-- C8 witness: `TOPIC_ID = "abc"` fails coercion; the message is sent
without a thread id and the request succeeds with 200. -/
theorem c8_topic_handling_witness :
    (envTopicBad.TELEGRAM_TOPIC_ID = some "abc" ∧ ("abc" : String) ≠ ""
      ∧ jsNumNone "abc" = none)
    ∧ ((netlifyHandler envTopicBad parseOk jsNumNone "d"
          (.ok ⟨true, some ⟨42⟩, none, none⟩) ⟨"POST", "b"⟩).outbound).map
        (fun q => q.message_thread_id) = some (jsNumNone "abc")
    ∧ (netlifyHandler envTopicBad parseOk jsNumNone "d"
          (.ok ⟨true, some ⟨42⟩, none, none⟩) ⟨"POST", "b"⟩).response
      = { statusCode := 200,
          body := { success := true, message := some msgSentOk,
                    messageId := some 42 } } :=
  ⟨⟨rfl, by decide, rfl⟩,
    (c8_topic_handling envTopicBad parseOk jsNumNone "d" "b" "abc" formOk 42 none none
      (.ok ⟨true, some ⟨42⟩, none, none⟩) rfl (by decide) rfl
      (by decide) (by decide) (by decide) (by decide) (by decide) (by decide)).1,
    (c8_topic_handling envTopicBad parseOk jsNumNone "d" "b" "abc" formOk 42 none none
      (.ok ⟨true, some ⟨42⟩, none, none⟩) rfl (by decide) rfl
      (by decide) (by decide) (by decide) (by decide) (by decide) (by decide)).2.1 rfl⟩
